import Mathlib

/-!
Shallow embedding of `src/main.rs` of rust-skia-performance-test.

The program parses CLI flags, then runs `performance_test` in a loop:
allocate a raster surface, clear it to white, apply a global scale, run the
enabled draw stages (path, raster image, text, svg) and optionally save the
surface to PNG.  Interaction with the Skia library (path parsing, image
decoding, SVG parsing, PNG encoding, file I/O outcomes) is modelled by an
environment of boolean success flags; the canvas is modelled by its
coordinate transform, the save/restore stack of transforms, and the list of
draw commands issued.
-/

/-- RGB color, as in `skia_safe::Color::from_rgb`. -/
structure RsColor where
  r : Nat
  g : Nat
  b : Nat
deriving DecidableEq, Repr

def RsColor.white : RsColor := ⟨255, 255, 255⟩

def RsColor.black : RsColor := ⟨0, 0, 0⟩

/-- The coordinate transform of the canvas.  The program only ever applies
axis-aligned scales and translates, so the transform stays of the form
`(x, y) ↦ (sx * x + tx, sy * y + ty)`; coefficients are rationals standing in
for the `f32` values of the source. -/
structure Xform where
  sx : ℚ
  sy : ℚ
  tx : ℚ
  ty : ℚ
deriving DecidableEq, Repr

def Xform.ident : Xform := ⟨1, 1, 0, 0⟩

/-- `canvas.translate((dx, dy))`: pre-concat a translation. -/
def Xform.translateBy (m : Xform) (dx dy : ℚ) : Xform :=
  ⟨m.sx, m.sy, m.tx + m.sx * dx, m.ty + m.sy * dy⟩

/-- `canvas.scale((kx, ky))`: pre-concat a scale. -/
def Xform.scaleBy (m : Xform) (kx ky : ℚ) : Xform :=
  ⟨m.sx * kx, m.sy * ky, m.tx, m.ty⟩

/-- The canvas operations the program issues (`skia_safe::Canvas` methods
used by `main.rs`). -/
inductive CanvasOp where
  | save : CanvasOp
  | restore : CanvasOp
  | translate (dx dy : ℚ) : CanvasOp
  | scale (kx ky : ℚ) : CanvasOp
  | clear (c : RsColor) : CanvasOp
  | drawPath : CanvasOp
  | drawImageRect : CanvasOp
  | drawParagraph : CanvasOp
  | drawSvg : CanvasOp
deriving DecidableEq, Repr

/-- Canvas state: current transform, the stack written by `save`/`restore`,
and the draw commands issued so far (transform-changing ops are not draw
commands and are not recorded in `cmds`). -/
structure RsCanvas where
  xf : Xform
  stack : List Xform
  cmds : List CanvasOp
deriving DecidableEq, Repr

def RsCanvas.init : RsCanvas := ⟨Xform.ident, [], []⟩

/-- Semantics of one canvas operation.  `restore` on an empty stack is a
no-op, matching Skia (`restore` does nothing when the save count is 1). -/
def applyOp (c : RsCanvas) : CanvasOp → RsCanvas
  | .save => { c with stack := c.xf :: c.stack }
  | .restore =>
    match c.stack with
    | [] => c
    | m :: rest => { c with xf := m, stack := rest }
  | .translate dx dy => { c with xf := c.xf.translateBy dx dy }
  | .scale kx ky => { c with xf := c.xf.scaleBy kx ky }
  | op => { c with cmds := c.cmds ++ [op] }

def applyOps (c : RsCanvas) (ops : List CanvasOp) : RsCanvas :=
  ops.foldl applyOp c

/-- Outcomes of the external (Skia / file-system) calls of one run.  Fields
mirror, in order: `surfaces::raster_n32_premul`, `path.exists()` for the
three asset files, `SkPath::from_svg` on the literal, file read and
`Image::from_encoded` for mars.jpg, file read and `Typeface::from_data` for
the font, file read and `Dom::from_bytes` for the SVG, `image.encode`,
`File::create` and `file.write_all` for the output. -/
structure Env where
  surfaceAllocOk : Bool
  marsExists : Bool
  fontExists : Bool
  svgExists : Bool
  pathParses : Bool
  imageReadOk : Bool
  imageDecodes : Bool
  fontReadOk : Bool
  fontDecodes : Bool
  svgReadOk : Bool
  svgParses : Bool
  encodeOk : Bool
  createOk : Bool
  writeOk : Bool
deriving DecidableEq, Repr

/-- `draw_path` (main.rs:109-134): save, translate (12, 12), scale
(0.45, 0.45), draw the parsed path if `SkPath::from_svg` succeeded, restore. -/
def drawPathOps (pathParses : Bool) : List CanvasOp :=
  [.save, .translate 12 12, .scale (9/20) (9/20)] ++
    (if pathParses then [.drawPath] else []) ++ [.restore]

/-- `draw_raster` (main.rs:136-153): save, translate (250, 0), scale
(0.05, 0.05), draw the decoded image if reading and decoding succeeded,
restore. -/
def drawRasterOps (readOk decodes : Bool) : List CanvasOp :=
  [.save, .translate 250 0, .scale (1/20) (1/20)] ++
    (if readOk && decodes then [.drawImageRect] else []) ++ [.restore]

/-- `draw_text` (main.rs:155-197): the only canvas operation is
`paragraph.paint(canvas, (25.0, 275.0))`.  There is no save/restore and no
transform change; font reading/decoding only affects typeface registration,
not the canvas. -/
def drawTextOps : List CanvasOp := [.drawParagraph]

/-- `draw_svg` (main.rs:199-209): save, translate (350, 275), scale
(0.22, 0.22), render the DOM if reading and parsing succeeded, restore. -/
def drawSvgOps (readOk parses : Bool) : List CanvasOp :=
  [.save, .translate 350 275, .scale (11/50) (11/50)] ++
    (if readOk && parses then [.drawSvg] else []) ++ [.restore]

/-- The pipeline stages, for tracing execution order. `clearW` is the
initial `canvas.clear(Color::WHITE)`. -/
inductive Stage where
  | clearW
  | pathS
  | rasterS
  | textS
  | svgS
  | saveS
deriving DecidableEq, Repr

/-- Reasons the Rust process panics during a run. -/
inductive PanicReason where
  | missingFile (name : String)
  | createFailed
  | writeFailed
deriving DecidableEq, Repr

/-- The PNG file written by `save_to_png`: its pixel dimensions (the encoded
snapshot has the dimensions of the surface). -/
structure OutputFile where
  width : Nat
  height : Nat
deriving DecidableEq, Repr

/-- State of one `performance_test` run: the canvas, the trace of stages
that executed, whether `File::create` succeeded on the output path (the file
exists on disk, possibly truncated/partial), and the fully written output. -/
structure RunState where
  canvas : RsCanvas
  stages : List Stage
  outputCreated : Bool
  output : Option OutputFile
deriving DecidableEq, Repr

/-- State after `canvas.clear(Color::WHITE)` and
`canvas.scale((scale as f32, scale as f32))` (main.rs:78-79). -/
def initRun (scale : Nat) : RunState :=
  { canvas := applyOps RsCanvas.init [.clear RsColor.white, .scale (scale : ℚ) (scale : ℚ)]
    stages := [.clearW]
    outputCreated := false
    output := none }

/-- Run one draw stage: record its tag and apply its canvas operations. -/
def runStage (s : RunState) (tag : Stage) (ops : List CanvasOp) : RunState :=
  { s with stages := s.stages ++ [tag], canvas := applyOps s.canvas ops }

/-- `check_file_exists` (main.rs:102-107): panics when the file is absent. -/
def checkFileExists (ex : Bool) (name : String) (s : RunState) :
    Except (PanicReason × RunState) RunState :=
  if ex then .ok s else .error (.missingFile name, s)

/-- The raster stage of `performance_test` (main.rs:83-86): check that
mars.jpg exists (panic otherwise), then `draw_raster`. -/
def rasterStage (env : Env) (s : RunState) : Except (PanicReason × RunState) RunState :=
  match checkFileExists env.marsExists "mars.jpg" s with
  | .error e => .error e
  | .ok s => .ok (runStage s .rasterS (drawRasterOps env.imageReadOk env.imageDecodes))

/-- The text stage of `performance_test` (main.rs:87-90): check that
Adigiana_Ultra.ttf exists (panic otherwise), then `draw_text`. -/
def textStage (env : Env) (s : RunState) : Except (PanicReason × RunState) RunState :=
  match checkFileExists env.fontExists "Adigiana_Ultra.ttf" s with
  | .error e => .error e
  | .ok s => .ok (runStage s .textS drawTextOps)

/-- The SVG stage of `performance_test` (main.rs:91-94): check that
pinocchio.svg exists (panic otherwise), then `draw_svg`. -/
def svgStage (env : Env) (s : RunState) : Except (PanicReason × RunState) RunState :=
  match checkFileExists env.svgExists "pinocchio.svg" s with
  | .error e => .error e
  | .ok s => .ok (runStage s .svgS (drawSvgOps env.svgReadOk env.svgParses))

/-- `const CANVAS_SIZE: i32 = 512` (main.rs:17).  `scale` is a `u8`, so
`CANVAS_SIZE * scale ≤ 512 * 255` and the `i32` product never overflows;
we use `Nat`. -/
def CANVAS_SIZE : Nat := 512

/-- `save_to_png` (main.rs:221-229) on a surface of side `CANVAS_SIZE * scale`:
snapshot and encode; when encoding succeeds, `File::create(..).unwrap()`
(panic on failure), then `write_all(..).unwrap()` (panic on failure).  When
`image.encode` returns `None`, the `if let` falls through silently. -/
def saveToPng (env : Env) (scale : Nat) (s : RunState) :
    Except (PanicReason × RunState) RunState :=
  let s := { s with stages := s.stages ++ [Stage.saveS] }
  if env.encodeOk then
    if env.createOk then
      let s := { s with outputCreated := true }
      if env.writeOk then
        .ok { s with output := some ⟨CANVAS_SIZE * scale, CANVAS_SIZE * scale⟩ }
      else
        .error (.writeFailed, s)
    else
      .error (.createFailed, s)
  else
    .ok s

/-- The body of `performance_test` (main.rs:72-99) after successful surface
allocation: clear, global scale, then the enabled stages in order, with
panics propagated as `.error` carrying the state at panic time. -/
def performanceTestBody (env : Env) (path raster text svg save : Bool) (scale : Nat) :
    Except (PanicReason × RunState) RunState :=
  let s0 := initRun scale
  let s1 := if path then runStage s0 .pathS (drawPathOps env.pathParses) else s0
  match (if raster then rasterStage env s1 else .ok s1) with
  | .error e => .error e
  | .ok s2 =>
    match (if text then textStage env s2 else .ok s2) with
    | .error e => .error e
    | .ok s3 =>
      match (if svg then svgStage env s3 else .ok s3) with
      | .error e => .error e
      | .ok s4 => if save then saveToPng env scale s4 else .ok s4

/-- Result of one `performance_test` call. `noSurface`: `raster_n32_premul`
returned `None` and the whole body was skipped (main.rs:72, no else branch).
`panicked`: the process aborted, with the run state at the moment of the
panic.  `ok`: the run finished normally. -/
inductive RunResult where
  | noSurface : RunResult
  | panicked (why : PanicReason) (s : RunState) : RunResult
  | ok (s : RunState) : RunResult
deriving DecidableEq, Repr

/-- `performance_test` (main.rs:63-100). -/
def performanceTest (env : Env) (path raster text svg save : Bool) (scale : Nat) :
    RunResult :=
  if env.surfaceAllocOk then
    match performanceTestBody env path raster text svg save scale with
    | .error (why, s) => .panicked why s
    | .ok s => .ok s
  else
    .noSurface

/-- Whether the run ended in a panic (non-zero process exit). -/
def RunResult.panicked? : RunResult → Bool
  | .panicked _ _ => true
  | _ => false

/-- The fully written output file of the run, if any. -/
def RunResult.outputOf : RunResult → Option OutputFile
  | .noSurface => none
  | .panicked _ s => s.output
  | .ok s => s.output

/-- Whether `File::create` ran on the output path (a possibly partial file
exists on disk). -/
def RunResult.outputCreatedOf : RunResult → Bool
  | .noSurface => false
  | .panicked _ s => s.outputCreated
  | .ok s => s.outputCreated

/-- The draw commands issued on the canvas up to the end (or panic) of the
run. -/
def RunResult.cmdsOf : RunResult → List CanvasOp
  | .noSurface => []
  | .panicked _ s => s.canvas.cmds
  | .ok s => s.canvas.cmds

/-- The trace of stages that executed during the run. -/
def RunResult.stagesOf : RunResult → List Stage
  | .noSurface => []
  | .panicked _ s => s.stages
  | .ok s => s.stages

/-- The parsed command line (`struct Cli`, main.rs:19-37).  `loop_count` and
`scale` are `u8` in the source, hence `Fin 256`. -/
structure Cli where
  dirPath : String
  loopCount : Fin 256
  drawPath : Bool
  drawRaster : Bool
  drawText : Bool
  drawSvg : Bool
  save : Bool
  scale : Fin 256
deriving DecidableEq, Repr

/-- The flag-defaulting logic of `main` (main.rs:42-48): when none of the
five stage flags was given, enable all five. -/
def resolveStages (c : Cli) : Cli :=
  if !(c.drawPath || c.drawRaster || c.drawText || c.drawSvg || c.save) then
    { c with drawPath := true, drawRaster := true, drawText := true,
             drawSvg := true, save := true }
  else
    c

/-- The loop of `main` (main.rs:50-60): run `performance_test`
`loop_count` times with the resolved flags. -/
def mainRun (env : Env) (c : Cli) : List RunResult :=
  let a := resolveStages c
  (List.range a.loopCount.val).map
    (fun _ => performanceTest env a.drawPath a.drawRaster a.drawText a.drawSvg a.save a.scale.val)

/-- Whether any run of the loop wrote an output file. -/
def anyOutput (rs : List RunResult) : Bool :=
  rs.any (fun r => r.outputOf.isSome)

/-- Whether any run of the loop issued any draw command. -/
def anyDrawn (rs : List RunResult) : Bool :=
  rs.any (fun r => !r.cmdsOf.isEmpty)

/-- Whether an operation list forms its own transform save/restore scope:
it begins with `canvas.save()` and ends with `canvas.restore()`. -/
def scopedOps (ops : List CanvasOp) : Bool :=
  (ops.head? == some CanvasOp.save) && (ops.getLast? == some CanvasOp.restore)

/-- Whether a canvas operation is a draw command (recorded in `cmds`), as
opposed to a transform or stack operation. -/
def isDraw : CanvasOp → Bool
  | .clear _ => true
  | .drawPath => true
  | .drawImageRect => true
  | .drawParagraph => true
  | .drawSvg => true
  | _ => false

/-- The run state produced by a panic-free `performance_test` run: the
stages enabled by the flags executed in order on top of the cleared,
globally scaled canvas, and (when saving) the output written with the
surface dimensions. -/
def normalState (env : Env) (path raster text svg save : Bool) (scale : Nat) : RunState :=
  let s0 := initRun scale
  let s1 := if path then runStage s0 .pathS (drawPathOps env.pathParses) else s0
  let s2 := if raster then runStage s1 .rasterS (drawRasterOps env.imageReadOk env.imageDecodes) else s1
  let s3 := if text then runStage s2 .textS drawTextOps else s2
  let s4 := if svg then runStage s3 .svgS (drawSvgOps env.svgReadOk env.svgParses) else s3
  if save then
    { s4 with stages := s4.stages ++ [Stage.saveS], outputCreated := true,
              output := some ⟨CANVAS_SIZE * scale, CANVAS_SIZE * scale⟩ }
  else
    s4

/-- `ParagraphBuilder` as used by `draw_text`: `add_text` appends a run with
the currently effective color; `push_style` (with a `TextStyle` differing
only in color) makes a new color current for all later text. -/
structure ParaBuilder where
  color : RsColor
  runs : List (RsColor × String)
deriving DecidableEq, Repr

def ParaBuilder.addText (b : ParaBuilder) (t : String) : ParaBuilder :=
  { b with runs := b.runs ++ [(b.color, t)] }

def ParaBuilder.pushStyle (b : ParaBuilder) (c : RsColor) : ParaBuilder :=
  { b with color := c }

/-- The six text segments of `draw_text` (main.rs:172-191), in source
order. -/
def textSegments : List String :=
  ["Lorem ipsum dolor sit amet, consectetur adipiscing elit, ",
   "sed do eiusmod tempor incididunt ut labore et dolore magna aliqua. ",
   "Ut enim ad minim veniam, quis nostrud exercitation ullamco laboris nisi ut ",
   "aliquip ex ea commodo consequat. Duis aute irure dolor in reprehenderit in ",
   "voluptate velit esse cillum dolore eu fugiat nulla pariatur. Excepteur sint ",
   "occaecat cupidatat non proident, sunt in culpa qui officia deserunt mollit anim id est laborum.\n"]

/-- The builder state after the `add_text` / `push_style` sequence of
`draw_text` (main.rs:165-191): base style color (0,0,0), then each later
segment preceded by a push of its color. -/
def textParagraphBuilt : ParaBuilder :=
  let b : ParaBuilder := ⟨⟨0, 0, 0⟩, []⟩
  let b := b.addText (textSegments.getD 0 "")
  let b := (b.pushStyle ⟨255, 0, 0⟩).addText (textSegments.getD 1 "")
  let b := (b.pushStyle ⟨0, 255, 0⟩).addText (textSegments.getD 2 "")
  let b := (b.pushStyle ⟨0, 0, 255⟩).addText (textSegments.getD 3 "")
  let b := (b.pushStyle ⟨255, 255, 0⟩).addText (textSegments.getD 4 "")
  let b := (b.pushStyle ⟨0, 255, 255⟩).addText (textSegments.getD 5 "")
  b

/-- Concatenation of the styled run texts of a builder, in order, ignoring
color. -/
def builtParagraphText (b : ParaBuilder) : String :=
  b.runs.foldl (fun acc p => acc ++ p.2) ""

/-- Modelled from the spec: the fixed literal Lorem-ipsum paragraph content
that the concatenated runs must match byte-for-byte, ending with a
newline. -/
def loremParagraph : String :=
  "Lorem ipsum dolor sit amet, consectetur adipiscing elit, sed do eiusmod tempor incididunt ut labore et dolore magna aliqua. Ut enim ad minim veniam, quis nostrud exercitation ullamco laboris nisi ut aliquip ex ea commodo consequat. Duis aute irure dolor in reprehenderit in voluptate velit esse cillum dolore eu fugiat nulla pariatur. Excepteur sint occaecat cupidatat non proident, sunt in culpa qui officia deserunt mollit anim id est laborum.\n"

/-- Environment in which every external call succeeds. -/
def envAll : Env :=
  ⟨true, true, true, true, true, true, true, true, true, true, true, true, true, true⟩

/-- As `envAll`, but `mars.jpg` is absent. -/
def envNoMars : Env := { envAll with marsExists := false }

/-- As `envAll`, but `image.encode` fails. -/
def envNoEncode : Env := { envAll with encodeOk := false }

/-- As `envAll`, but `File::create` on the output path fails. -/
def envNoCreate : Env := { envAll with createOk := false }

/-- As `envAll`, but `write_all` fails. -/
def envNoWrite : Env := { envAll with writeOk := false }

/-- As `envAll`, but surface allocation fails. -/
def envNoSurface : Env := { envAll with surfaceAllocOk := false }

/-- As `envAll`, but the path literal, the image bytes and the SVG bytes
are all malformed. -/
def envMalformed : Env :=
  { envAll with pathParses := false, imageDecodes := false, svgParses := false }

/-- A command line with `--loop 0` and all stage flags given. -/
def cliZero : Cli := ⟨"assets", 0, true, true, true, true, true, 1⟩

/-- A command line with `--loop 2` and all stage flags given. -/
def cliTwo : Cli := ⟨"assets", 2, true, true, true, true, true, 1⟩

/-!
Theorems.
-/

/-- Normal form of a panic-free run: when the surface allocates and every
file check and save step that will actually execute succeeds, the run
finishes and its state is `normalState`. -/
theorem performanceTest_normal (env : Env) (p r t s sv : Bool) (scale : Nat)
    (h0 : env.surfaceAllocOk = true)
    (h1 : r = true → env.marsExists = true)
    (h2 : t = true → env.fontExists = true)
    (h3 : s = true → env.svgExists = true)
    (h4 : sv = true → env.encodeOk = true)
    (h5 : sv = true → env.createOk = true)
    (h6 : sv = true → env.writeOk = true) :
    performanceTest env p r t s sv scale = .ok (normalState env p r t s sv scale) := by
  cases r <;> cases t <;> cases s <;> cases sv <;>
    simp_all [performanceTest, performanceTestBody, rasterStage, textStage, svgStage,
      saveToPng, checkFileExists, normalState]

/-- The `loop_count` field survives the flag-defaulting of `main`. -/
theorem resolveStages_loopCount (c : Cli) : (resolveStages c).loopCount = c.loopCount := by
  unfold resolveStages
  split <;> rfl

/-- The `scale` field survives the flag-defaulting of `main`. -/
theorem resolveStages_scale (c : Cli) : (resolveStages c).scale = c.scale := by
  unfold resolveStages
  split <;> rfl

/-- C7: if none of the five flags `--path`, `--raster`, `--text`, `--svg`,
`--save` is given, all five stages are enabled; if at least one is given,
the flags are left exactly as given. -/
theorem cli_default_enables_all (c : Cli) :
    resolveStages c =
      (if c.drawPath || c.drawRaster || c.drawText || c.drawSvg || c.save then c
       else { c with drawPath := true, drawRaster := true, drawText := true,
                     drawSvg := true, save := true }) := by
  obtain ⟨d, lc, p, r, t, s, sv, sc⟩ := c
  cases p <;> cases r <;> cases t <;> cases s <;> cases sv <;> rfl

/-- C2 (amended): the Path, Image and SVG renderers are each wrapped in
their own save/restore scope, and all four renderers — including the Text
renderer, which issues no transform operation at all — leave the canvas
transform and the save stack exactly as they found them, so no renderer's
local translate/scale is visible to a later stage. -/
theorem renderers_preserve_transform (b1 b2 : Bool) (c : RsCanvas) :
    ((applyOps c (drawPathOps b1)).xf = c.xf ∧ (applyOps c (drawPathOps b1)).stack = c.stack) ∧
    ((applyOps c (drawRasterOps b1 b2)).xf = c.xf ∧
      (applyOps c (drawRasterOps b1 b2)).stack = c.stack) ∧
    ((applyOps c drawTextOps).xf = c.xf ∧ (applyOps c drawTextOps).stack = c.stack) ∧
    ((applyOps c (drawSvgOps b1 b2)).xf = c.xf ∧
      (applyOps c (drawSvgOps b1 b2)).stack = c.stack) ∧
    scopedOps (drawPathOps b1) = true ∧ scopedOps (drawRasterOps b1 b2) = true ∧
    scopedOps (drawSvgOps b1 b2) = true := by
  cases b1 <;> cases b2 <;>
    exact ⟨⟨rfl, rfl⟩, ⟨rfl, rfl⟩, ⟨rfl, rfl⟩, ⟨rfl, rfl⟩, rfl, rfl, rfl⟩

/-- C2 (counterexample): the Text renderer is not wrapped in a transform
save/restore scope — its operation list neither begins with `save` nor ends
with `restore`, and contains no `save`/`restore` at all. -/
theorem text_renderer_not_scoped :
    scopedOps drawTextOps = false ∧
    CanvasOp.save ∉ drawTextOps ∧ CanvasOp.restore ∉ drawTextOps := by
  decide

/-- C4 (amended): when `surfaces::raster_n32_premul` returns no surface,
`performance_test` silently does nothing — no panic, no drawing, no output
file — and returns normally. -/
theorem alloc_failure_silent (env : Env) (p r t s sv : Bool) (scale : Nat)
    (h : env.surfaceAllocOk = false) :
    performanceTest env p r t s sv scale = .noSurface ∧
    (performanceTest env p r t s sv scale).panicked? = false ∧
    (performanceTest env p r t s sv scale).outputOf = none ∧
    (performanceTest env p r t s sv scale).cmdsOf = [] := by
  simp [performanceTest, h, RunResult.panicked?, RunResult.outputOf, RunResult.cmdsOf]

/-- Witness for `alloc_failure_silent` at a concrete environment. -/
theorem alloc_failure_silent_witness :
    envNoSurface.surfaceAllocOk = false ∧
    performanceTest envNoSurface true true true true true 1 = .noSurface :=
  ⟨rfl, (alloc_failure_silent envNoSurface true true true true true 1 rfl).1⟩

/-- C4 (counterexample): with allocation failing and every stage enabled,
the run does not abort — it returns without a panic, and a two-iteration
loop silently continues to the second iteration. -/
theorem alloc_failure_not_fatal :
    performanceTest envNoSurface true true true true true 1 = .noSurface ∧
    (performanceTest envNoSurface true true true true true 1).panicked? = false ∧
    mainRun envNoSurface cliTwo = [.noSurface, .noSurface] := by
  decide

set_option maxRecDepth 8192 in
/-- C9: the concatenation of the six styled run texts appended by
`draw_text`, in order and ignoring color, is byte-for-byte the fixed literal
Lorem-ipsum paragraph, which ends with a newline; the builder holds exactly
six runs. -/
theorem paragraph_text_concat :
    builtParagraphText textParagraphBuilt = loremParagraph ∧
    textParagraphBuilt.runs.length = 6 ∧
    loremParagraph.data.getLast? = some (Char.ofNat 10) := by
  refine ⟨rfl, rfl, ?_⟩
  decide

/-- C10: the loop count is an 8-bit unsigned integer, so the pipeline runs
at most 255 times; with `--loop 0` it runs zero times — nothing is drawn and
no output file is written even when `--save` is enabled. -/
theorem loop_count_semantics (env : Env) (c : Cli) :
    (mainRun env c).length = c.loopCount.val ∧
    (mainRun env c).length ≤ 255 ∧
    (c.loopCount.val = 0 →
      mainRun env c = [] ∧ anyOutput (mainRun env c) = false ∧
      anyDrawn (mainRun env c) = false) := by
  have hl : (mainRun env c).length = c.loopCount.val := by
    simp [mainRun, resolveStages_loopCount]
  refine ⟨hl, ?_, ?_⟩
  · have := c.loopCount.isLt
    omega
  · intro h0
    have he : mainRun env c = [] := by
      simp [mainRun, resolveStages_loopCount, h0]
    exact ⟨he, by simp [he, anyOutput], by simp [he, anyDrawn]⟩

/-- Witness for `loop_count_semantics` at `--loop 0` with all flags and
`--save` given. -/
theorem loop_count_semantics_witness :
    cliZero.loopCount.val = 0 ∧ mainRun envAll cliZero = [] ∧
    anyOutput (mainRun envAll cliZero) = false :=
  ⟨rfl, ((loop_count_semantics envAll cliZero).2.2 rfl).1,
    ((loop_count_semantics envAll cliZero).2.2 rfl).2.1⟩

/-- C8: the Frame Composer first clears to white, then runs exactly the
enabled stages in the fixed relative order Path, Image, Text, SVG, then the
save stage when enabled; no enabled stage is skipped and no disabled stage
appears in the trace. -/
theorem composer_stage_order (env : Env) (p r t s sv : Bool) (scale : Nat)
    (h0 : env.surfaceAllocOk = true)
    (h1 : r = true → env.marsExists = true)
    (h2 : t = true → env.fontExists = true)
    (h3 : s = true → env.svgExists = true)
    (h4 : sv = true → env.encodeOk = true)
    (h5 : sv = true → env.createOk = true)
    (h6 : sv = true → env.writeOk = true) :
    (performanceTest env p r t s sv scale).stagesOf =
      Stage.clearW ::
        ((if p then [Stage.pathS] else []) ++ (if r then [Stage.rasterS] else []) ++
         (if t then [Stage.textS] else []) ++ (if s then [Stage.svgS] else []) ++
         (if sv then [Stage.saveS] else [])) := by
  rw [performanceTest_normal env p r t s sv scale h0 h1 h2 h3 h4 h5 h6]
  cases p <;> cases r <;> cases t <;> cases s <;> cases sv <;>
    simp [normalState, runStage, initRun, RunResult.stagesOf]

/-- Witness for `composer_stage_order`: with all stages enabled the trace is
clear, path, raster, text, svg, save. -/
theorem composer_stage_order_witness :
    envAll.surfaceAllocOk = true ∧
    (performanceTest envAll true true true true true 1).stagesOf =
      [Stage.clearW, Stage.pathS, Stage.rasterS, Stage.textS, Stage.svgS, Stage.saveS] := by
  refine ⟨rfl, ?_⟩
  have h := composer_stage_order envAll true true true true true 1 rfl
    (fun _ => rfl) (fun _ => rfl) (fun _ => rfl) (fun _ => rfl) (fun _ => rfl) (fun _ => rfl)
  simpa using h

/-- C6: a run with all stages enabled and every external call succeeding
writes an output file whose pixel dimensions are the base canvas size (512)
times the scale factor in both width and height. -/
theorem output_dimensions (env : Env) (scale : Nat)
    (h0 : env.surfaceAllocOk = true) (h1 : env.marsExists = true)
    (h2 : env.fontExists = true) (h3 : env.svgExists = true)
    (h4 : env.encodeOk = true) (h5 : env.createOk = true) (h6 : env.writeOk = true) :
    (performanceTest env true true true true true scale).outputOf =
      some ⟨CANVAS_SIZE * scale, CANVAS_SIZE * scale⟩ ∧ CANVAS_SIZE = 512 := by
  rw [performanceTest_normal env true true true true true scale h0 (fun _ => h1)
    (fun _ => h2) (fun _ => h3) (fun _ => h4) (fun _ => h5) (fun _ => h6)]
  exact ⟨rfl, rfl⟩

/-- Witness for `output_dimensions` at scale 3. -/
theorem output_dimensions_witness :
    (performanceTest envAll true true true true true 3).outputOf =
      some ⟨1536, 1536⟩ :=
  (output_dimensions envAll 3 rfl rfl rfl rfl rfl rfl rfl).1

/-- One canvas operation appends itself to `cmds` exactly when it is a draw
command. -/
theorem applyOp_cmds (c : RsCanvas) (op : CanvasOp) :
    (applyOp c op).cmds = c.cmds ++ (if isDraw op then [op] else []) := by
  obtain ⟨xf, st, cm⟩ := c
  cases op <;> cases st <;> simp [applyOp, isDraw]

/-- The draw commands recorded by a sequence of canvas operations are the
draw commands among them, in order. -/
theorem applyOps_cmds (ops : List CanvasOp) :
    ∀ c : RsCanvas, (applyOps c ops).cmds = c.cmds ++ ops.filter (fun op => isDraw op) := by
  induction ops with
  | nil => intro c; simp [applyOps]
  | cons op rest ih =>
    intro c
    have h1 : applyOps c (op :: rest) = applyOps (applyOp c op) rest := rfl
    rw [h1, ih, applyOp_cmds]
    cases hop : isDraw op <;> simp [List.filter_cons, hop]

/-- A stage appends exactly the draw commands of its operation list. -/
theorem runStage_cmds (s : RunState) (tag : Stage) (ops : List CanvasOp) :
    (runStage s tag ops).canvas.cmds =
      s.canvas.cmds ++ ops.filter (fun op => isDraw op) := by
  simp [runStage, applyOps_cmds]

/-- The draw commands of the Path renderer. -/
theorem drawPathOps_draws (b : Bool) :
    (drawPathOps b).filter (fun op => isDraw op) =
      (if b then [CanvasOp.drawPath] else []) := by
  cases b <;> rfl

/-- The draw commands of the Image renderer. -/
theorem drawRasterOps_draws (b1 b2 : Bool) :
    (drawRasterOps b1 b2).filter (fun op => isDraw op) =
      (if b1 && b2 then [CanvasOp.drawImageRect] else []) := by
  cases b1 <;> cases b2 <;> rfl

/-- The draw commands of the Text renderer. -/
theorem drawTextOps_draws :
    drawTextOps.filter (fun op => isDraw op) = [CanvasOp.drawParagraph] := rfl

/-- The draw commands of the SVG renderer. -/
theorem drawSvgOps_draws (b1 b2 : Bool) :
    (drawSvgOps b1 b2).filter (fun op => isDraw op) =
      (if b1 && b2 then [CanvasOp.drawSvg] else []) := by
  cases b1 <;> cases b2 <;> rfl

/-- After the initial clear and global scale the only draw command is the
white clear. -/
theorem initRun_cmds (scale : Nat) :
    (initRun scale).canvas.cmds = [CanvasOp.clear RsColor.white] := rfl

/-- The draw commands of a panic-free run: the white clear followed by the
draw command of each enabled stage whose asset parsed/decoded. -/
theorem normalState_cmds (env : Env) (p r t s sv : Bool) (scale : Nat) :
    (normalState env p r t s sv scale).canvas.cmds =
      CanvasOp.clear RsColor.white ::
        ((if p then (if env.pathParses then [CanvasOp.drawPath] else []) else []) ++
         (if r then (if env.imageReadOk && env.imageDecodes then [CanvasOp.drawImageRect] else [])
          else []) ++
         (if t then [CanvasOp.drawParagraph] else []) ++
         (if s then (if env.svgReadOk && env.svgParses then [CanvasOp.drawSvg] else [])
          else [])) := by
  cases p <;> cases r <;> cases t <;> cases s <;> cases sv <;>
    simp [normalState, runStage_cmds, drawPathOps_draws, drawRasterOps_draws,
      drawTextOps_draws, drawSvgOps_draws, initRun_cmds]

/-- C5: when an asset is malformed (the path literal fails to parse, the
image bytes fail to decode, or the SVG bytes fail to parse), the affected
renderer issues no draw command, the run does not panic, and with save
enabled the output file is still written. -/
theorem malformed_asset_silently_skipped (env : Env) (p r t s : Bool) (scale : Nat)
    (h0 : env.surfaceAllocOk = true) (h1 : env.marsExists = true)
    (h2 : env.fontExists = true) (h3 : env.svgExists = true)
    (h4 : env.encodeOk = true) (h5 : env.createOk = true) (h6 : env.writeOk = true) :
    (performanceTest env p r t s true scale).panicked? = false ∧
    (performanceTest env p r t s true scale).outputOf =
      some ⟨CANVAS_SIZE * scale, CANVAS_SIZE * scale⟩ ∧
    (env.pathParses = false →
      CanvasOp.drawPath ∉ (performanceTest env p r t s true scale).cmdsOf) ∧
    (env.imageDecodes = false →
      CanvasOp.drawImageRect ∉ (performanceTest env p r t s true scale).cmdsOf) ∧
    (env.svgParses = false →
      CanvasOp.drawSvg ∉ (performanceTest env p r t s true scale).cmdsOf) := by
  rw [performanceTest_normal env p r t s true scale h0 (fun _ => h1) (fun _ => h2)
    (fun _ => h3) (fun _ => h4) (fun _ => h5) (fun _ => h6)]
  refine ⟨rfl, rfl, ?_, ?_, ?_⟩ <;>
    intro h <;>
      simp only [RunResult.cmdsOf, normalState_cmds] <;>
      split_ifs <;> simp_all

/-- Witness for `malformed_asset_silently_skipped`: all three assets
malformed, all stages enabled, scale 1. -/
theorem malformed_asset_silently_skipped_witness :
    envMalformed.pathParses = false ∧
    (performanceTest envMalformed true true true true true 1).panicked? = false ∧
    (performanceTest envMalformed true true true true true 1).outputOf =
      some ⟨512, 512⟩ ∧
    CanvasOp.drawPath ∉ (performanceTest envMalformed true true true true true 1).cmdsOf := by
  have h := malformed_asset_silently_skipped envMalformed true true true true 1
    rfl rfl rfl rfl rfl rfl rfl
  exact ⟨rfl, h.1, h.2.1, h.2.2.1 rfl⟩

/-- C1 (amended): a missing required asset file for an enabled stage makes
the run panic (non-zero exit); the save stage never runs, `File::create` is
never called on the output path, and no output file — not even a partial
one — is produced. -/
theorem missing_asset_aborts_run (env : Env) (p r t s sv : Bool) (scale : Nat)
    (h0 : env.surfaceAllocOk = true)
    (h : (r = true ∧ env.marsExists = false) ∨ (t = true ∧ env.fontExists = false) ∨
         (s = true ∧ env.svgExists = false)) :
    (performanceTest env p r t s sv scale).panicked? = true ∧
    (performanceTest env p r t s sv scale).outputOf = none ∧
    (performanceTest env p r t s sv scale).outputCreatedOf = false ∧
    Stage.saveS ∉ (performanceTest env p r t s sv scale).stagesOf := by
  obtain ⟨sa, me, fe, se, pp, iro, idec, fro, fdec, sro, sp, eo, co, wo⟩ := env
  simp only at h0
  subst h0
  cases me <;> cases fe <;> cases se <;> cases p <;> cases r <;> cases t <;>
    cases s <;> cases sv <;>
      simp_all [performanceTest, performanceTestBody, rasterStage, textStage,
        svgStage, saveToPng, checkFileExists, runStage, initRun,
        RunResult.panicked?, RunResult.outputOf, RunResult.outputCreatedOf,
        RunResult.stagesOf]

/-- Witness for `missing_asset_aborts_run`: mars.jpg absent, all stages
enabled. -/
theorem missing_asset_aborts_run_witness :
    (performanceTest envNoMars true true true true true 1).panicked? = true ∧
    (performanceTest envNoMars true true true true true 1).outputOf = none ∧
    (performanceTest envNoMars true true true true true 1).outputCreatedOf = false ∧
    Stage.saveS ∉ (performanceTest envNoMars true true true true true 1).stagesOf :=
  missing_asset_aborts_run envNoMars true true true true true 1 rfl (Or.inl ⟨rfl, rfl⟩)

/-- C1 (counterexample): with mars.jpg absent and all stages enabled the
process does panic, but drawing has already begun before the abort — the
white clear and the Path renderer's draw command were already issued. -/
theorem missing_asset_draws_first :
    (performanceTest envNoMars true true true true true 1).panicked? = true ∧
    CanvasOp.drawPath ∈ (performanceTest envNoMars true true true true true 1).cmdsOf ∧
    CanvasOp.clear RsColor.white ∈
      (performanceTest envNoMars true true true true true 1).cmdsOf := by
  decide

/-- C3 (amended): in `save_to_png`, a failed `File::create` or a failed
`write_all` panics (fatal, reported), but a failed `image.encode` is
silently swallowed: the function returns normally, writing nothing.  A write
failure aborts a full run. -/
theorem save_failure_modes (env : Env) (scale : Nat) (st : RunState) :
    (env.encodeOk = false →
      saveToPng env scale st = .ok { st with stages := st.stages ++ [Stage.saveS] }) ∧
    (env.encodeOk = true → env.createOk = false →
      saveToPng env scale st =
        .error (.createFailed, { st with stages := st.stages ++ [Stage.saveS] })) ∧
    (env.encodeOk = true → env.createOk = true → env.writeOk = false →
      saveToPng env scale st =
        .error (.writeFailed,
          { st with stages := st.stages ++ [Stage.saveS], outputCreated := true })) ∧
    (env.surfaceAllocOk = true → env.marsExists = true → env.fontExists = true →
      env.svgExists = true → env.encodeOk = true → env.createOk = true →
      env.writeOk = false →
      (performanceTest env true true true true true scale).panicked? = true) := by
  refine ⟨?_, ?_, ?_, ?_⟩
  · intro h
    simp [saveToPng, h]
  · intro h1 h2
    simp [saveToPng, h1, h2]
  · intro h1 h2 h3
    simp [saveToPng, h1, h2, h3]
  · intro g0 g1 g2 g3 g4 g5 g6
    simp [performanceTest, performanceTestBody, rasterStage, textStage, svgStage,
      saveToPng, checkFileExists, g0, g1, g2, g3, g4, g5, g6, RunResult.panicked?]

/-- Witness for `save_failure_modes`: a failed create panics, and a full run
with a failing write panics. -/
theorem save_failure_modes_witness :
    saveToPng envNoCreate 1 (initRun 1) =
      .error (.createFailed,
        { initRun 1 with stages := (initRun 1).stages ++ [Stage.saveS] }) ∧
    (performanceTest envNoWrite true true true true true 1).panicked? = true :=
  ⟨(save_failure_modes envNoCreate 1 (initRun 1)).2.1 rfl rfl,
   (save_failure_modes envNoWrite 1 (initRun 1)).2.2.2 rfl rfl rfl rfl rfl rfl rfl⟩

/-- C3 (counterexample): when `image.encode` fails, the run does not abort
and nothing is reported — the save stage runs, no panic occurs, and no
output file is written. -/
theorem encode_failure_swallowed :
    (performanceTest envNoEncode true true true true true 1).panicked? = false ∧
    (performanceTest envNoEncode true true true true true 1).outputOf = none ∧
    Stage.saveS ∈ (performanceTest envNoEncode true true true true true 1).stagesOf := by
  decide
